import Mathlib

/-!
# Verification of the goal-based test lifecycle manager

Shallow embedding of the test-generation and test-execution subsystem of the
repository (`core/framework/testing/` and `core/framework/llm/litellm.py`),
together with proofs about the behaviour of the embedded code.

Modelling conventions:
* JSON values decoded by Python `json.loads` are modelled by the inductive
  `Json`; JSON numbers are modelled as exact rationals (the verified code
  paths perform no floating point arithmetic, only conversion by `float()`
  and equality comparison with the literal `0.5`, which is exactly
  representable).
* Python exceptions are modelled with `Except String`; the string is the
  rendered exception message.  Code that does not catch an exception
  propagates the `.error` value.
* The external LLM transport (`litellm.completion` wrapped by
  `LiteLLMProvider._completion_with_rate_limit_retry`) is modelled as an
  oracle function from the current message list to one response or a raised
  exception; one oracle call corresponds to one tool-calling round trip.
* The Python string methods used by the embedded code (`strip`, `split`,
  `startswith`, substring membership) are re-implemented structurally over
  character lists so that concrete runs evaluate inside the kernel.
-/

namespace Hive

/-- Python literal `0.5` as an exact rational. -/
def half : ℚ := mkRat 1 2

mutual

/-- A JSON value as produced by Python `json.loads`.  Numbers are modelled as
exact rationals; objects keep their key/value pairs in insertion order. -/
inductive Json where
  | null
  | bool (b : Bool)
  | num (q : ℚ)
  | str (s : String)
  | arr (elems : JsonArr)
  | obj (fields : JsonFields)
deriving Repr, DecidableEq

/-- The element list of a JSON array. -/
inductive JsonArr where
  | nil
  | cons (hd : Json) (tl : JsonArr)
deriving Repr, DecidableEq

/-- The key/value pairs of a JSON object, in insertion order. -/
inductive JsonFields where
  | nil
  | cons (k : String) (v : Json) (tl : JsonFields)
deriving Repr, DecidableEq

end

/-- Whether a JSON value is a string. -/
def Json.isStr : Json → Bool
  | .str _ => true
  | _ => false

/-- Lookup of the first binding of `key` (keys produced by `json.loads` are
unique, so first = only). -/
def JsonFields.find? : JsonFields → String → Option Json
  | .nil, _ => none
  | .cons k v rest, key => if k == key then some v else rest.find? key

/-- Python `d.get(key, dflt)` on a decoded JSON object. -/
def dictGet (fields : JsonFields) (key : String) (dflt : Json) : Json :=
  match fields.find? key with
  | some v => v
  | none => dflt

/-- Truthiness of a decoded JSON value under Python `bool(...)`. -/
def pyTruthy : Json → Bool
  | .null => false
  | .bool b => b
  | .num q => q != 0
  | .str s => s != ""
  | .arr .nil => false
  | .arr (.cons _ _) => true
  | .obj .nil => false
  | .obj (.cons _ _ _) => true

/-! ## Python string primitives, re-implemented structurally -/

/-- The whitespace characters stripped by Python `str.strip()` (ASCII part;
no verified property feeds non-ASCII whitespace). -/
def isSpaceChar (c : Char) : Bool :=
  c == ' ' || c == '\t' || c == '\n' || c == '\r' || c == '\x0b' || c == '\x0c'

/-- Python `s.strip()`. -/
def pyStrip (s : String) : String :=
  String.mk (((s.toList.dropWhile isSpaceChar).reverse.dropWhile isSpaceChar).reverse)

/-- Python `s.startswith(p)`. -/
def pyStartsWith (s p : String) : Bool :=
  p.toList.isPrefixOf s.toList

/-- Helper for `pyContains`: does `needle` occur in the character list? -/
def containsAux (needle : List Char) : List Char → Bool
  | [] => needle.isPrefixOf []
  | c :: rest => needle.isPrefixOf (c :: rest) || containsAux needle rest

/-- Python `needle in hay` on strings. -/
def pyContains (hay needle : String) : Bool :=
  containsAux needle.toList hay.toList

/-- Helper for `pySplit`: fuel-indexed scan; the fuel is initialised with the
length of the scanned list, which the scan never exceeds. -/
def splitOnFuel (sep : List Char) : Nat → List Char → List Char → List (List Char)
  | 0, cs, acc => [acc.reverse ++ cs]
  | _ + 1, [], acc => [acc.reverse]
  | fuel + 1, c :: rest, acc =>
    if sep.isPrefixOf (c :: rest) then
      acc.reverse :: splitOnFuel sep fuel (List.drop (sep.length - 1) rest) []
    else
      splitOnFuel sep fuel rest (c :: acc)

/-- Python `s.split(sep)` for a non-empty separator. -/
def pySplit (s sep : String) : List String :=
  (splitOnFuel sep.toList s.toList.length s.toList []).map String.mk

/-! ## Numbers -/

/-- Numeric value of a decimal digit character. -/
def digitVal (c : Char) : ℕ := c.toNat - 48

/-- Value of an all-digit character list, most significant digit first. -/
def digitsVal (cs : List Char) : ℕ :=
  cs.foldl (fun acc c => acc * 10 + digitVal c) 0

/-- Parse a simple decimal literal (optional sign, digits, optional fraction)
the way Python `float(...)` accepts it.  Exponents, underscores, `inf` and
`nan` are not modelled; no verified property feeds such inputs. -/
def parseDecimal? (s : String) : Option ℚ :=
  let cs := pyStrip s |>.toList
  let signed : Int × List Char :=
    match cs with
    | '-' :: rest => (-1, rest)
    | '+' :: rest => (1, rest)
    | _ => (1, cs)
  let sign := signed.1
  let body := signed.2
  let intPart := body.takeWhile Char.isDigit
  let rest := body.dropWhile Char.isDigit
  match rest with
  | [] =>
    if intPart.isEmpty then none
    else some (mkRat (sign * (digitsVal intPart : Int)) 1)
  | '.' :: fracRest =>
    let fracPart := fracRest.takeWhile Char.isDigit
    let rest2 := fracRest.dropWhile Char.isDigit
    if rest2.isEmpty && !(intPart.isEmpty && fracPart.isEmpty) then
      some (mkRat (sign * (digitsVal (intPart ++ fracPart) : Int)) (10 ^ fracPart.length))
    else none
  | _ => none

/-- Python `float(x)` applied to a decoded JSON value: numbers and booleans
convert, numeric strings parse, everything else raises
(`ValueError` / `TypeError`). -/
def pyFloat : Json → Except String ℚ
  | .num q => .ok q
  | .bool b => .ok (if b then 1 else 0)
  | .str s =>
    match parseDecimal? s with
    | some q => .ok q
    | none => .error ("ValueError: could not convert string to float: " ++ s)
  | .null => .error "TypeError: float() argument must be a string or a real number, not NoneType"
  | .arr _ => .error "TypeError: float() argument must be a string or a real number"
  | .obj _ => .error "TypeError: float() argument must be a string or a real number"

/-! ## Data model -/

/-- Modelled from the spec: `TestType` of `framework/testing/test_case.py`
(the module itself is not among the sources; only its callers are). -/
inductive TestType where
  | CONSTRAINT
  | SUCCESS_CRITERIA
  | EDGE_CASE
deriving Repr, DecidableEq

/-- Modelled from the spec: `ApprovalStatus` of
`framework/testing/test_case.py` (not among the sources). -/
inductive ApprovalStatus where
  | PENDING
  | APPROVED
  | MODIFIED
  | REJECTED
deriving Repr, DecidableEq

/-- Modelled from the spec: the `Test` record of
`framework/testing/test_case.py` (not among the sources), restricted to the
fields the generators populate.  The content fields hold the decoded
tool-call payload values unchanged, exactly as the generator code passes
them to the constructor. -/
structure Test where
  id : String
  goal_id : String
  parent_criteria_id : Json
  test_type : TestType
  test_name : Json
  test_code : Json
  description : Json
  input : Json
  expected_output : Json
  generated_by : String
  llm_confidence : ℚ
  approval_status : ApprovalStatus
deriving Repr, DecidableEq

/-- Modelled from the spec: a goal constraint
(`framework/graph/goal.py` is not among the sources). -/
structure Constraint where
  id : String
  constraint_type : String
  category : String
  description : String
  check : String
deriving Repr, DecidableEq

/-- Modelled from the spec: a goal success criterion
(`framework/graph/goal.py` is not among the sources). -/
structure SuccessCriterion where
  id : String
  description : String
  metric : String
  target : String
  weight : ℚ
  met : Bool
deriving Repr, DecidableEq

/-- Modelled from the spec: a `Goal` (`framework/graph/goal.py` is not among
the sources). -/
structure Goal where
  id : String
  name : String
  description : String
  constraints : List Constraint
  success_criteria : List SuccessCriterion
deriving Repr, DecidableEq

/-! ## LLM transport model (`framework/llm/litellm.py`) -/

/-- One tool call requested by the model.  The raw `function.arguments` JSON
string is modelled by its `json.loads` outcome: `some fields` when it decodes
to an object, `none` on `JSONDecodeError`. -/
structure ToolCall where
  id : String
  name : String
  arguments : Option JsonFields
deriving Repr, DecidableEq

/-- `framework/llm/provider.ToolUse` (the provider module is not among the
sources; the shape is taken from its uses in the generators). -/
structure ToolUse where
  id : String
  name : String
  input : JsonFields
deriving Repr, DecidableEq

/-- `framework/llm/provider.ToolResult` (shape taken from its uses). -/
structure ToolResult where
  tool_use_id : String
  content : String
  is_error : Bool := false
deriving Repr, DecidableEq

/-- A chat message as assembled by `complete_with_tools`. -/
inductive Message where
  | system (content : String)
  | user (content : String)
  | assistant (content : Option String) (tool_calls : List ToolCall)
  | tool (tool_call_id : String) (content : String)
deriving Repr, DecidableEq

/-- The (single) choice of one transport response, as consumed by
`complete_with_tools`: finish reason, message content, requested tool calls,
reported model name (empty string standing for an absent name) and token
usage (`none` when the response carries no usage record). -/
structure ModelResponse where
  finish_reason : String
  content : Option String
  tool_calls : List ToolCall
  model : String := ""
  usage : Option (Nat × Nat) := none
deriving Repr, DecidableEq

/-- `framework/llm/provider.LLMResponse` (shape taken from its construction
sites in `litellm.py`; the opaque `raw_response` field is omitted). -/
structure LLMResponse where
  content : String
  model : String
  input_tokens : Nat
  output_tokens : Nat
  stop_reason : String
deriving Repr, DecidableEq

/-- The external transport together with the provider's configured model
name: `oracle msgs` is the outcome of one
`_completion_with_rate_limit_retry` round trip on the current message list
(the declared tools, being constant across a run, live inside the oracle). -/
structure LLMProviderModel where
  model : String
  oracle : List Message → Except String ModelResponse

/-- Loop body of `LiteLLMProvider.complete_with_tools`
(`litellm.py` lines 240–330).  The executor is state-passing (the generators
close over a mutable list); the third result component counts transport
round trips.  Fuel `0` is the `for` loop falling through after
`max_iterations` iterations: it returns the `"max_iterations"` response. -/
def completeWithToolsGo {σ : Type} (selfModel : String)
    (oracle : List Message → Except String ModelResponse)
    (executor : ToolUse → σ → ToolResult × σ) :
    Nat → List Message → σ → Nat → Nat → Nat →
    Except String LLMResponse × σ × Nat
  | 0, _, s, inTok, outTok, calls =>
    (.ok { content := "Max tool iterations reached", model := selfModel,
           input_tokens := inTok, output_tokens := outTok,
           stop_reason := "max_iterations" }, s, calls)
  | fuel + 1, msgs, s, inTok, outTok, calls =>
    match oracle msgs with
    | .error e => (.error e, s, calls + 1)
    | .ok resp =>
      let toks : Nat × Nat :=
        match resp.usage with
        | some u => (inTok + u.1, outTok + u.2)
        | none => (inTok, outTok)
      if resp.finish_reason == "stop" || resp.tool_calls.isEmpty then
        (.ok { content := resp.content.getD "",
               model := if resp.model == "" then selfModel else resp.model,
               input_tokens := toks.1, output_tokens := toks.2,
               stop_reason := if resp.finish_reason == "" then "stop" else resp.finish_reason },
         s, calls + 1)
      else
        let msgs1 := msgs ++ [Message.assistant resp.content resp.tool_calls]
        let stepped := resp.tool_calls.foldl
          (fun (acc : List Message × σ) tc =>
            let args := tc.arguments.getD .nil
            let tu : ToolUse := { id := tc.id, name := tc.name, input := args }
            let r := executor tu acc.2
            (acc.1 ++ [Message.tool r.1.tool_use_id r.1.content], r.2))
          (msgs1, s)
        completeWithToolsGo selfModel oracle executor fuel stepped.1 stepped.2
          toks.1 toks.2 (calls + 1)

/-- `LiteLLMProvider.complete_with_tools`: prepends the system message and
runs the tool-use loop.  Returns the response (or the propagated exception),
the final executor state and the number of transport round trips. -/
def complete_with_tools {σ : Type} (llm : LLMProviderModel)
    (executor : ToolUse → σ → ToolResult × σ)
    (messages : List Message) (system : String) (maxIterations : Nat)
    (s0 : σ) : Except String LLMResponse × σ × Nat :=
  let current := (if system != "" then [Message.system system] else []) ++ messages
  completeWithToolsGo llm.model llm.oracle executor maxIterations current s0 0 0 0

/-! ## Test generators (`constraint_gen.py`, `success_gen.py`) -/

/-- The `tool_executor` closure both generators define: record the arguments
of every `submit_test` invocation, acknowledge it; reject unknown tools. -/
def submitTestExecutor (tu : ToolUse) (collected : List JsonFields) :
    ToolResult × List JsonFields :=
  if tu.name == "submit_test" then
    ({ tool_use_id := tu.id, content := "Test recorded successfully" },
     collected ++ [tu.input])
  else
    ({ tool_use_id := tu.id, content := "Unknown tool", is_error := true }, collected)

/-- One `Test` built from one recorded submission
(`_create_tests_from_collected` loop body, shared between the two
generators up to the criteria-id key and the test type).  `uuid8` is the
8-character uuid4 hex the call mints.  `float(td.get("confidence", 0.5))`
raises when the value is present but not convertible. -/
def makeTest (key : String) (tt : TestType) (uuid8 : String) (goal_id : String)
    (td : JsonFields) : Except String Test := do
  let conf ← pyFloat (dictGet td "confidence" (.num half))
  .ok { id := "test_" ++ uuid8,
        goal_id := goal_id,
        parent_criteria_id := dictGet td key (.str "unknown"),
        test_type := tt,
        test_name := dictGet td "test_name" (.str "unnamed_test"),
        test_code := dictGet td "test_code" (.str ""),
        description := dictGet td "description" (.str ""),
        input := dictGet td "input" (.obj .nil),
        expected_output := dictGet td "expected_output" (.obj .nil),
        generated_by := "llm",
        llm_confidence := conf,
        approval_status := .PENDING }

/-- `_create_tests_from_collected`, parameterised by the criteria-id key and
the test type.  `uuidHex k` is the hex digest of the `k`-th `uuid.uuid4()`
call of the run (the uuid supply is passed explicitly). -/
def createTestsCore (key : String) (tt : TestType) (uuidHex : Nat → String)
    (goal_id : String) : List JsonFields → Nat → Except String (List Test)
  | [], _ => .ok []
  | td :: rest, k => do
    let t ← makeTest key tt ((uuidHex k).take 8) goal_id td
    let ts ← createTestsCore key tt uuidHex goal_id rest (k + 1)
    .ok (t :: ts)

/-- `ConstraintTestGenerator._create_tests_from_collected`. -/
def ConstraintTestGenerator.createTestsFromCollected (uuidHex : Nat → String)
    (collected : List JsonFields) (goal_id : String) : Except String (List Test) :=
  createTestsCore "constraint_id" .CONSTRAINT uuidHex goal_id collected 0

/-- `SuccessCriteriaTestGenerator._create_tests_from_collected`. -/
def SuccessCriteriaTestGenerator.createTestsFromCollected (uuidHex : Nat → String)
    (collected : List JsonFields) (goal_id : String) : Except String (List Test) :=
  createTestsCore "criteria_id" .SUCCESS_CRITERIA uuidHex goal_id collected 0

/-- The skeleton filter both `generate` methods apply:
`[t for t in tests if t.test_code.strip() and t.llm_confidence != 0.5]`.
`strip()` on a non-string `test_code` raises `AttributeError`. -/
def skeletonFilter : List Test → Except String (List Test)
  | [] => .ok []
  | t :: rest => do
    let keep : Bool ←
      match t.test_code with
      | .str s => .ok (pyStrip s != "" && t.llm_confidence != half)
      | _ => .error "AttributeError: test_code has no attribute strip"
    let ts ← skeletonFilter rest
    .ok (if keep then t :: ts else ts)

/-- `ConstraintTestGenerator._format_constraint`. -/
def formatConstraint (c : Constraint) : String :=
  let severity := if c.constraint_type == "hard" then "HARD" else "SOFT"
  "### Constraint: " ++ c.id ++ "\n- Type: " ++ severity ++ " (" ++ c.constraint_type
    ++ ")\n- Category: " ++ c.category ++ "\n- Description: " ++ c.description
    ++ "\n- Check: " ++ c.check

/-- `ConstraintTestGenerator._format_constraints`: each formatted constraint
followed by a blank line, joined with newlines. -/
def formatConstraints (cs : List Constraint) : String :=
  String.intercalate "\n" (cs.foldr (fun c acc => formatConstraint c :: "" :: acc) [])

/-- `SuccessCriteriaTestGenerator._format_criterion`. -/
def formatCriterion (c : SuccessCriterion) : String :=
  "### Success Criterion: " ++ c.id ++ "\n- Description: " ++ c.description
    ++ "\n- Metric: " ++ c.metric ++ "\n- Target: " ++ c.target
    ++ "\n- Weight: " ++ toString c.weight ++ "\n- Currently met: "
    ++ (if c.met then "True" else "False")

/-- `SuccessCriteriaTestGenerator._format_criteria`. -/
def formatCriteria (cs : List SuccessCriterion) : String :=
  String.intercalate "\n" (cs.foldr (fun c acc => formatCriterion c :: "" :: acc) [])

/-- `", ".join(names or ["(not specified)"])` for the optional node/tool name
lists of the success-criteria generator. -/
def joinNames (names : Option (List String)) : String :=
  String.intercalate ", "
    (match names with
     | some (n :: ns) => n :: ns
     | _ => ["(not specified)"])

/-- `CONSTRAINT_TEST_PROMPT.format(...)` from `prompts.py`.  The template's
long instructional prose is abbreviated to short section markers: no
verified property inspects the prompt text, only which goal fields are
interpolated and in which order (goal name, goal description, agent module,
formatted constraints). -/
def constraintTestPrompt (goal_name goal_description constraints_formatted
    agent_module : String) : String :=
  "You are generating pytest-compatible async test cases for an AI agent constraints.\n\nGOAL\nName: "
    ++ goal_name ++ "\nDescription: " ++ goal_description
    ++ "\n\nAGENT\nImport path: " ++ agent_module
    ++ "\n\nCONSTRAINTS\n" ++ constraints_formatted
    ++ "\n\n[instructions and code examples omitted]"

/-- `SUCCESS_CRITERIA_TEST_PROMPT.format(...)` from `prompts.py`, with the
same abbreviation convention as `constraintTestPrompt` (interpolation order:
goal name, goal description, agent module, formatted criteria, node names,
tool names). -/
def successCriteriaTestPrompt (goal_name goal_description
    success_criteria_formatted node_names tool_names agent_module : String) : String :=
  "You are generating pytest-compatible async success criteria tests for an AI agent.\n\nGOAL\nName: "
    ++ goal_name ++ "\nDescription: " ++ goal_description
    ++ "\n\nAGENT\nImport path: " ++ agent_module
    ++ "\n\nSUCCESS CRITERIA\n" ++ success_criteria_formatted
    ++ "\n\nNodes: " ++ node_names ++ "\nTools: " ++ tool_names
    ++ "\n\n[instructions and code examples omitted]"

/-- The tail of `ConstraintTestGenerator.generate` after the tool-use loop:
build `Test` objects from the recorded submissions, apply the skeleton
filter, cap at 5 (each step propagates an exception, matching the Python
statement sequence). -/
def constraintBatchPost (uuidHex : Nat → String) (goal_id : String)
    (collected : List JsonFields) : Except String (List Test) :=
  match ConstraintTestGenerator.createTestsFromCollected uuidHex collected goal_id with
  | .error e => .error e
  | .ok tests =>
    match skeletonFilter tests with
    | .error e => .error e
    | .ok kept => .ok (kept.take 5)

/-- The tail of `SuccessCriteriaTestGenerator.generate` after the tool-use
loop: build, filter, cap at 12. -/
def successBatchPost (uuidHex : Nat → String) (goal_id : String)
    (collected : List JsonFields) : Except String (List Test) :=
  match SuccessCriteriaTestGenerator.createTestsFromCollected uuidHex collected goal_id with
  | .error e => .error e
  | .ok tests =>
    match skeletonFilter tests with
    | .error e => .error e
    | .ok kept => .ok (kept.take 12)

/-- The observable outcome of one generator run: the returned value (or the
propagated exception), the `complete_with_tools` outcome (`none` when no LLM
call was made), the recorded submissions, and the number of transport round
trips. -/
structure GenRun where
  result : Except String (List Test)
  llmResult : Option (Except String LLMResponse)
  collected : List JsonFields
  llmCalls : Nat

/-- Assembles a generator's observables from a `complete_with_tools` outcome:
an exception from the transport propagates (none of the generators wrap the
call in a `try`); on normal return the post-processing runs on the recorded
submissions. -/
def GenRun.ofRun (post : List JsonFields → Except String (List Test))
    (r : Except String LLMResponse × List JsonFields × Nat) : GenRun :=
  { result :=
      match r.1 with
      | .error e => .error e
      | .ok _ => post r.2.1,
    llmResult := some r.1,
    collected := r.2.1,
    llmCalls := r.2.2 }

/-- `ConstraintTestGenerator.generate` (constraint_gen.py lines 76–125),
instrumented with the run observables. -/
def ConstraintTestGenerator.generateRun (llm : LLMProviderModel)
    (uuidHex : Nat → String) (goal : Goal) (agent_module : String := "my_agent") :
    GenRun :=
  if goal.constraints.isEmpty then
    { result := .ok [], llmResult := none, collected := [], llmCalls := 0 }
  else
    let prompt := constraintTestPrompt goal.name goal.description
      (formatConstraints goal.constraints) agent_module
    GenRun.ofRun
      (constraintBatchPost uuidHex goal.id)
      (complete_with_tools llm submitTestExecutor [Message.user prompt]
        "You are a test generation expert. For each constraint, call the submit_test tool with the test details."
        5 [])

/-- `ConstraintTestGenerator.generate`: the value returned to the caller. -/
def ConstraintTestGenerator.generate (llm : LLMProviderModel)
    (uuidHex : Nat → String) (goal : Goal) (agent_module : String := "my_agent") :
    Except String (List Test) :=
  (ConstraintTestGenerator.generateRun llm uuidHex goal agent_module).result

/-- `ConstraintTestGenerator.generate_for_constraint`
(constraint_gen.py lines 127–170), instrumented. -/
def ConstraintTestGenerator.generateForConstraintRun (llm : LLMProviderModel)
    (uuidHex : Nat → String) (goal : Goal) (constraint : Constraint)
    (agent_module : String := "my_agent") : GenRun :=
  let prompt := constraintTestPrompt goal.name goal.description
    (formatConstraint constraint) agent_module
  GenRun.ofRun
    (fun collected =>
      ConstraintTestGenerator.createTestsFromCollected uuidHex collected goal.id)
    (complete_with_tools llm submitTestExecutor [Message.user prompt]
      "You are a test generation expert. Call the submit_test tool with the test details."
      3 [])

/-- `SuccessCriteriaTestGenerator.generate` (success_gen.py lines 78–137),
instrumented. -/
def SuccessCriteriaTestGenerator.generateRun (llm : LLMProviderModel)
    (uuidHex : Nat → String) (goal : Goal)
    (node_names : Option (List String) := none)
    (tool_names : Option (List String) := none)
    (agent_module : String := "my_agent") : GenRun :=
  if goal.success_criteria.isEmpty then
    { result := .ok [], llmResult := none, collected := [], llmCalls := 0 }
  else
    let prompt := successCriteriaTestPrompt goal.name goal.description
      (formatCriteria goal.success_criteria) (joinNames node_names)
      (joinNames tool_names) agent_module
    GenRun.ofRun
      (successBatchPost uuidHex goal.id)
      (complete_with_tools llm submitTestExecutor [Message.user prompt]
        "You are a test generation expert. For each success criterion, call the submit_test tool with the test details."
        12 [])

/-- `SuccessCriteriaTestGenerator.generate`: the value returned to the
caller. -/
def SuccessCriteriaTestGenerator.generate (llm : LLMProviderModel)
    (uuidHex : Nat → String) (goal : Goal)
    (node_names : Option (List String) := none)
    (tool_names : Option (List String) := none)
    (agent_module : String := "my_agent") : Except String (List Test) :=
  (SuccessCriteriaTestGenerator.generateRun llm uuidHex goal node_names
    tool_names agent_module).result

/-- `SuccessCriteriaTestGenerator.generate_for_criterion`
(success_gen.py lines 139–190), instrumented. -/
def SuccessCriteriaTestGenerator.generateForCriterionRun (llm : LLMProviderModel)
    (uuidHex : Nat → String) (goal : Goal) (criterion : SuccessCriterion)
    (node_names : Option (List String) := none)
    (tool_names : Option (List String) := none)
    (agent_module : String := "my_agent") : GenRun :=
  let prompt := successCriteriaTestPrompt goal.name goal.description
    (formatCriterion criterion) (joinNames node_names) (joinNames tool_names)
    agent_module
  GenRun.ofRun
    (fun collected =>
      SuccessCriteriaTestGenerator.createTestsFromCollected uuidHex collected goal.id)
    (complete_with_tools llm submitTestExecutor [Message.user prompt]
      "You are a test generation expert. Call the submit_test tool with the test details."
      5 [])

/-! ## CLI execution orchestration (`framework/testing/cli.py`) -/

/-- Outcome of one `subprocess.run(cmd, timeout=...)` call:
normal completion with an exit code, `subprocess.TimeoutExpired`, or any
other exception with its message. -/
inductive RunOutcome where
  | completed (returncode : Int)
  | timeoutExpired
  | failure (msg : String)
deriving Repr, DecidableEq

/-- The external subprocess runner: command line and timeout (seconds) to
outcome. -/
def Runner : Type := List String → Nat → RunOutcome

/-- Arguments of `cmd_test_run` after argparse (`type` ranges over
`constraint` / `success` / `edge_case` / `all`; `parallel` defaults to
`-1`). -/
structure TestRunArgs where
  agent_path : String
  goal : String
  parallel : Int := -1
  fail_fast : Bool := false
  type : String := "all"
deriving Repr, DecidableEq

/-- Arguments of `cmd_test_debug` after argparse. -/
structure TestDebugArgs where
  agent_path : String
  test_name : String
  goal : String := ""
deriving Repr, DecidableEq

/-- Result of a CLI command in the model: exit status, printed lines, and
the subprocess invocations made (command line with the timeout passed to
`subprocess.run`).  Environment-variable plumbing (`PYTHONPATH`) is outside
the model. -/
structure CliResult where
  status : Int
  printed : List String
  invocations : List (List String × Nat)
deriving Repr, DecidableEq

/-- The `type_to_file` table of `cmd_test_run`. -/
def typeToFile (t : String) : Option String :=
  if t == "constraint" then some "test_constraints.py"
  else if t == "success" then some "test_success_criteria.py"
  else if t == "edge_case" then some "test_edge_cases.py"
  else none

/-- The flag section of `cmd_test_run`: verbosity, fail-fast, the worker
count translation (`-1` requests `-n auto`, `0` stays sequential, a positive
count becomes `-n <count>`), traceback detail. -/
def buildRunCmd (args : TestRunArgs) (cmd0 : List String) : List String :=
  let cmd1 := cmd0 ++ ["-v"]
  let cmd2 := if args.fail_fast then cmd1 ++ ["-x"] else cmd1
  let cmd3 :=
    if args.parallel > 0 then cmd2 ++ ["-n", toString args.parallel]
    else if args.parallel == -1 then cmd2 ++ ["-n", "auto"]
    else cmd2
  cmd3 ++ ["--tb=short"]

/-- The `Running:` banner, the `subprocess.run(cmd, timeout=600)` call of
`cmd_test_run` and its exception handlers. -/
def runPytestBulk (runner : Runner) (cmd : List String) : CliResult :=
  let banner := "Running: " ++ String.intercalate " " cmd
  match runner cmd 600 with
  | .completed rc =>
    { status := rc, printed := [banner], invocations := [(cmd, 600)] }
  | .timeoutExpired =>
    { status := 1,
      printed := [banner, "Error: Test execution timed out after 10 minutes"],
      invocations := [(cmd, 600)] }
  | .failure e =>
    { status := 1, printed := [banner, "Error: Failed to run pytest: " ++ e],
      invocations := [(cmd, 600)] }

/-- Tail of `cmd_test_run` shared by all paths that reach the subprocess. -/
def cmdTestRunFinish (runner : Runner) (args : TestRunArgs)
    (cmd0 : List String) : CliResult :=
  runPytestBulk runner (buildRunCmd args cmd0)

/-- `cmd_test_run` (cli.py lines 245–311).  `fsExists` models
`Path.exists()`. -/
def cmdTestRun (fsExists : String → Bool) (runner : Runner)
    (args : TestRunArgs) : CliResult :=
  let tests_dir := args.agent_path ++ "/tests"
  if !fsExists tests_dir then
    { status := 1,
      printed := ["Error: Tests directory not found: " ++ tests_dir,
                  "Hint: Generate and approve tests first using test-generate"],
      invocations := [] }
  else if args.type == "all" then
    cmdTestRunFinish runner args ["pytest", tests_dir]
  else
    match typeToFile args.type with
    | some f =>
      let test_file := tests_dir ++ "/" ++ f
      if fsExists test_file then
        cmdTestRunFinish runner args ["pytest", test_file]
      else
        { status := 1,
          printed := ["Error: Test file not found: " ++ test_file],
          invocations := [] }
    | none =>
      -- unreachable through argparse (`choices` restricts `type`); the
      -- Python code would fall through with a bare `["pytest"]` command
      cmdTestRunFinish runner args ["pytest"]

/-- The file-discovery loop of `cmd_test_debug`: the first file of the tests
directory glob whose content contains `def <test_name>` or
`async def <test_name>`.  `testFiles` is the glob result in order, as
(file name, content) pairs. -/
def findTestFile (testFiles : List (String × String)) (test_name : String) :
    Option String :=
  (testFiles.find? (fun fc =>
    pyContains fc.2 ("def " ++ test_name)
      || pyContains fc.2 ("async def " ++ test_name))).map (·.1)

/-- The `Running:` banner, the `subprocess.run(cmd, timeout=120)` call of
`cmd_test_debug` and its exception handlers. -/
def runPytestSingle (runner : Runner) (cmd : List String) : CliResult :=
  let banner := "Running: " ++ String.intercalate " " cmd
  match runner cmd 120 with
  | .completed rc =>
    { status := rc, printed := [banner], invocations := [(cmd, 120)] }
  | .timeoutExpired =>
    { status := 1,
      printed := [banner, "Error: Test execution timed out after 2 minutes"],
      invocations := [(cmd, 120)] }
  | .failure e =>
    { status := 1, printed := [banner, "Error: Failed to run pytest: " ++ e],
      invocations := [(cmd, 120)] }

/-- Tail of `cmd_test_debug` once the test file is found: target the single
test with very verbose output and full tracebacks. -/
def cmdTestDebugFinish (runner : Runner) (args : TestDebugArgs)
    (test_file : String) : CliResult :=
  runPytestSingle runner ["pytest", test_file ++ "::" ++ args.test_name, "-vvs", "--tb=long"]

/-- `cmd_test_debug` (cli.py lines 314–368).  The quote characters Python
prints around the test name are omitted from the modelled messages. -/
def cmdTestDebug (fsExists : String → Bool)
    (testFiles : List (String × String)) (runner : Runner)
    (args : TestDebugArgs) : CliResult :=
  let tests_dir := args.agent_path ++ "/tests"
  if !fsExists tests_dir then
    { status := 1,
      printed := ["Error: Tests directory not found: " ++ tests_dir],
      invocations := [] }
  else
    match findTestFile testFiles args.test_name with
    | none =>
      { status := 1,
        printed := ["Error: Test " ++ args.test_name ++ " not found in " ++ tests_dir,
                    "Hint: Use test-list to see available tests"],
        invocations := [] }
    | some f => cmdTestDebugFinish runner args (tests_dir ++ "/" ++ f)

/-! ## LLM judge (`framework/testing/llm_judge.py`) -/

/-- The dict returned by `LLMJudge.evaluate`: `passes` is always a Python
bool; `explanation` is whatever value the parsed response supplied (a string
on every error path). -/
structure JudgeResult where
  passes : Bool
  explanation : Json
deriving Repr, DecidableEq

/-- The markdown-fence handling of `LLMJudge.evaluate`
(llm_judge.py lines 96–101). -/
def stripMarkdownFence (text : String) : String :=
  if pyStartsWith text "```" then
    let t := (pySplit text "```").getD 1 ""
    let t := if pyStartsWith t "json" then t.drop 4 else t
    pyStrip t
  else text

/-- `LLMJudge.evaluate` (llm_judge.py lines 48–110).  `clientText` is the
outcome of `client.messages.create(...)` and the `response.content[0].text`
access (an exception anywhere in it is the `.error` case); `jsonLoads` is
Python `json.loads`, passed as an oracle.  Every exception raised inside the
`try` block is mapped to `passes = False` with an `LLM judge error:`
explanation. -/
def LLMJudge.evaluate (clientText : Except String String)
    (jsonLoads : String → Except String Json) : JudgeResult :=
  match clientText with
  | .error e => { passes := false, explanation := .str ("LLM judge error: " ++ e) }
  | .ok raw =>
    match jsonLoads (stripMarkdownFence (pyStrip raw)) with
    | .error e => { passes := false, explanation := .str ("LLM judge error: " ++ e) }
    | .ok (.obj kvs) =>
      { passes := pyTruthy (dictGet kvs "passes" (.bool false)),
        explanation := dictGet kvs "explanation" (.str "No explanation provided") }
    | .ok _ =>
      -- `result.get` on a non-dict raises AttributeError inside the try block
      { passes := false,
        explanation := .str "LLM judge error: AttributeError: object has no attribute get" }

/-! ## Concrete fixtures -/

/-- A fixed uuid4 hex supply for concrete runs. -/
def uuidSupply : Nat → String := fun _ => "0123456789abcdef"

/-- A recorded submission with non-empty test code and the default
confidence `0.5`. -/
def subNonEmptyHalf : JsonFields :=
  .cons "constraint_id" (.str "c1") (.cons "test_name" (.str "test_c1")
    (.cons "test_code" (.str "assert True") (.cons "description" (.str "d")
    (.cons "confidence" (.num half) .nil))))

/-- A recorded submission whose confidence is present but not convertible by
`float()`. -/
def subUnparseable : JsonFields :=
  .cons "constraint_id" (.str "c1") (.cons "test_name" (.str "test_c1")
    (.cons "test_code" (.str "assert True") (.cons "description" (.str "d")
    (.cons "confidence" (.str "high") .nil))))

/-- A concrete constraint. -/
def exampleConstraint : Constraint :=
  { id := "c1", constraint_type := "hard", category := "general",
    description := "no leaks", check := "output clean" }

/-- A concrete success criterion. -/
def exampleCriterion : SuccessCriterion :=
  { id := "s1", description := "answers", metric := "accuracy",
    target := "0.9", weight := 1, met := false }

/-- A goal with one constraint and no success criteria. -/
def goalOneConstraint : Goal :=
  { id := "g1", name := "G", description := "goal text",
    constraints := [exampleConstraint],
    success_criteria := [] }

/-- A goal with one success criterion and no constraints. -/
def goalOneCriterion : Goal :=
  { id := "g2", name := "G2", description := "goal text",
    constraints := [],
    success_criteria := [exampleCriterion] }

/-- A goal with no constraints and no success criteria. -/
def emptyGoal : Goal :=
  { id := "g0", name := "E", description := "empty", constraints := [],
    success_criteria := [] }

/-- A transport oracle that requests one `submit_test` tool call on the
first round trip and stops on the second. -/
def oracleSubmitOnce (sub : JsonFields) : List Message → Except String ModelResponse :=
  fun msgs =>
    if msgs.length ≤ 2 then
      .ok { finish_reason := "tool_calls", content := none,
            tool_calls := [{ id := "tc1", name := "submit_test", arguments := some sub }] }
    else
      .ok { finish_reason := "stop", content := some "done", tool_calls := [] }

/-- Provider over `oracleSubmitOnce`. -/
def llmSubmitOnce (sub : JsonFields) : LLMProviderModel :=
  { model := "m", oracle := oracleSubmitOnce sub }

/-- A transport oracle that requests a `submit_test` tool call on every
round trip (never stops on its own). -/
def oracleAlwaysSubmit (sub : JsonFields) : List Message → Except String ModelResponse :=
  fun _ =>
    .ok { finish_reason := "tool_calls", content := none,
          tool_calls := [{ id := "tc1", name := "submit_test", arguments := some sub }] }

/-- Provider over `oracleAlwaysSubmit`. -/
def llmAlwaysSubmit (sub : JsonFields) : LLMProviderModel :=
  { model := "m", oracle := oracleAlwaysSubmit sub }

/-- A transport oracle that raises on every call. -/
def oracleRaise (e : String) : List Message → Except String ModelResponse :=
  fun _ => .error e

/-- Provider over `oracleRaise`. -/
def llmRaise (e : String) : LLMProviderModel :=
  { model := "m", oracle := oracleRaise e }

/-! ## General lemmas about the tool-use loop -/

/-- The transport keeps requesting tool calls on every round trip. -/
def alwaysToolCalls (oracle : List Message → Except String ModelResponse) : Prop :=
  ∀ msgs, ∃ resp, oracle msgs = .ok resp
    ∧ resp.finish_reason ≠ "stop" ∧ resp.tool_calls ≠ []

theorem completeWithToolsGo_calls_le {σ : Type} (m : String)
    (oracle : List Message → Except String ModelResponse)
    (ex : ToolUse → σ → ToolResult × σ) :
    ∀ (fuel : Nat) (msgs : List Message) (s : σ) (a b c : Nat),
      (completeWithToolsGo m oracle ex fuel msgs s a b c).2.2 ≤ c + fuel := by
  intro fuel
  induction fuel with
  | zero =>
    intro msgs s a b c
    simp [completeWithToolsGo]
  | succ n ih =>
    intro msgs s a b c
    unfold completeWithToolsGo
    cases hor : oracle msgs with
    | error e => simp
    | ok resp =>
      by_cases hs : (resp.finish_reason == "stop" || resp.tool_calls.isEmpty) = true
      · simp only [hs, if_true]
        simp
      · rw [Bool.not_eq_true] at hs
        simp only [hs, Bool.false_eq_true, if_false]
        refine le_trans (ih _ _ _ _ _) ?_
        omega

theorem completeWithToolsGo_always {σ : Type} (m : String)
    (oracle : List Message → Except String ModelResponse)
    (ex : ToolUse → σ → ToolResult × σ) (h : alwaysToolCalls oracle) :
    ∀ (fuel : Nat) (msgs : List Message) (s : σ) (a b c : Nat),
      ∃ r s2, completeWithToolsGo m oracle ex fuel msgs s a b c = (.ok r, s2, c + fuel)
        ∧ r.stop_reason = "max_iterations" := by
  intro fuel
  induction fuel with
  | zero =>
    intro msgs s a b c
    exact ⟨{ content := "Max tool iterations reached", model := m, input_tokens := a,
             output_tokens := b, stop_reason := "max_iterations" }, s,
           by simp [completeWithToolsGo], rfl⟩
  | succ n ih =>
    intro msgs s a b c
    obtain ⟨resp, hor, hfr, htc⟩ := h msgs
    unfold completeWithToolsGo
    rw [hor]
    have hs : (resp.finish_reason == "stop" || resp.tool_calls.isEmpty) = false := by
      have h1 : (resp.finish_reason == "stop") = false := by
        simpa using hfr
      have h2 : resp.tool_calls.isEmpty = false := by
        cases hx : resp.tool_calls with
        | nil => exact absurd hx htc
        | cons a l => rfl
      simp [h1, h2]
    simp only [hs, Bool.false_eq_true, if_false]
    obtain ⟨r, s2, heq, hst⟩ := ih _ _ _ _ (c + 1)
    rw [show c + 1 + n = c + (n + 1) by omega] at heq
    exact ⟨r, s2, heq, hst⟩

theorem completeWithToolsGo_error {σ : Type} (m : String)
    (oracle : List Message → Except String ModelResponse)
    (ex : ToolUse → σ → ToolResult × σ) (e : String)
    (h : ∀ msgs, oracle msgs = .error e) (fuel : Nat) (hf : fuel ≠ 0)
    (msgs : List Message) (s : σ) (a b c : Nat) :
    completeWithToolsGo m oracle ex fuel msgs s a b c = (.error e, s, c + 1) := by
  cases fuel with
  | zero => exact absurd rfl hf
  | succ k =>
    unfold completeWithToolsGo
    rw [h msgs]

/-- The observables of `GenRun.ofRun` when the transport raised. -/
theorem GenRun.ofRun_error (post : List JsonFields → Except String (List Test))
    (r : Except String LLMResponse × List JsonFields × Nat) (e : String)
    (h : r.1 = .error e) : (GenRun.ofRun post r).result = .error e := by
  simp [GenRun.ofRun, h]

/-- The result of `GenRun.ofRun` when the transport returned normally and no
submission was recorded, for a post-processing that maps `[]` to `.ok []`. -/
theorem GenRun.ofRun_nil (post : List JsonFields → Except String (List Test))
    (r : Except String LLMResponse × List JsonFields × Nat)
    (hpost : post [] = .ok [])
    (hcol : (GenRun.ofRun post r).collected = [])
    (hok : ∀ e, (GenRun.ofRun post r).llmResult ≠ some (.error e)) :
    (GenRun.ofRun post r).result = .ok [] := by
  rcases r with ⟨res, col, calls⟩
  cases res with
  | error e => exact absurd rfl (hok e)
  | ok resp =>
    simp only [GenRun.ofRun] at hcol ⊢
    rw [hcol]
    exact hpost

/-- Inversion for `GenRun.ofRun`: a successful result means the transport
returned normally and the result is the post-processing of the recorded
submissions. -/
theorem GenRun.ofRun_ok (post : List JsonFields → Except String (List Test))
    (r : Except String LLMResponse × List JsonFields × Nat) (l : List Test)
    (h : (GenRun.ofRun post r).result = .ok l) :
    post (GenRun.ofRun post r).collected = .ok l := by
  rcases r with ⟨res, col, calls⟩
  cases res with
  | error e => exact Except.noConfusion h
  | ok resp => exact h

/-! ## Claims -/

/-- C1: the claim (and the filter's own comment, and spec §4.3 step 5)
states that the skeleton filter drops exactly the submissions whose code is
empty/whitespace-only AND whose confidence equals 0.5, so a submission with
non-empty code and confidence exactly 0.5 is included.  The code
(`[t for t in tests if t.test_code.strip() and t.llm_confidence != 0.5]`,
constraint_gen.py line 123 / success_gen.py line 135) instead drops every
submission whose confidence equals 0.5: evaluating both generators on a run
that submits one test with non-empty code `"assert True"` and confidence
0.5 returns the empty list. -/
theorem claim_C1_code_eval :
    ConstraintTestGenerator.generate (llmSubmitOnce subNonEmptyHalf) uuidSupply
        goalOneConstraint "my_agent" = .ok []
    ∧ SuccessCriteriaTestGenerator.generate (llmSubmitOnce subNonEmptyHalf) uuidSupply
        goalOneCriterion none none "my_agent" = .ok [] :=
  ⟨rfl, rfl⟩

/-- C2 (counterexample): with a transport that raises on every call and a
goal那 has one constraint, `ConstraintTestGenerator.generate` evaluates to
the propagated exception — not to an empty sequence as the claim states. -/
theorem claim_C2_counterexample :
    ConstraintTestGenerator.generate (llmRaise "RateLimitError: 429") uuidSupply
        goalOneConstraint "my_agent" = .error "RateLimitError: 429"
    ∧ ConstraintTestGenerator.generate (llmRaise "RateLimitError: 429") uuidSupply
        goalOneConstraint "my_agent" ≠ .ok [] :=
  ⟨rfl, fun h => Except.noConfusion h⟩

/-- C2 (amended): if the LLM tool-calling capability raises, the generators
propagate the exception to their caller (the `complete_with_tools` call is
not wrapped in a try/except); an empty sequence is returned when the
capability completes normally with no recorded submissions. -/
theorem claim_C2_amended (llm : LLMProviderModel) (uuidHex : Nat → String)
    (goal : Goal) (node_names tool_names : Option (List String)) (am : String) :
    (∀ e, (∀ msgs, llm.oracle msgs = .error e) → goal.constraints ≠ [] →
      ConstraintTestGenerator.generate llm uuidHex goal am = .error e)
  ∧ (∀ e, (∀ msgs, llm.oracle msgs = .error e) → goal.success_criteria ≠ [] →
      SuccessCriteriaTestGenerator.generate llm uuidHex goal node_names tool_names am = .error e)
  ∧ ((ConstraintTestGenerator.generateRun llm uuidHex goal am).collected = [] →
      (∀ e, (ConstraintTestGenerator.generateRun llm uuidHex goal am).llmResult ≠ some (.error e)) →
      ConstraintTestGenerator.generate llm uuidHex goal am = .ok [])
  ∧ ((SuccessCriteriaTestGenerator.generateRun llm uuidHex goal node_names tool_names am).collected = [] →
      (∀ e, (SuccessCriteriaTestGenerator.generateRun llm uuidHex goal node_names tool_names am).llmResult ≠ some (.error e)) →
      SuccessCriteriaTestGenerator.generate llm uuidHex goal node_names tool_names am = .ok []) := by
  refine ⟨?_, ?_, ?_, ?_⟩
  · intro e herr hne
    have hie : goal.constraints.isEmpty = false := by
      cases hx : goal.constraints with
      | nil => exact absurd hx hne
      | cons a l => rfl
    simp only [ConstraintTestGenerator.generate, ConstraintTestGenerator.generateRun,
      hie, Bool.false_eq_true, if_false]
    refine GenRun.ofRun_error _ _ e ?_
    simp only [complete_with_tools]
    rw [completeWithToolsGo_error llm.model llm.oracle submitTestExecutor e herr 5 (by decide)]
  · intro e herr hne
    have hie : goal.success_criteria.isEmpty = false := by
      cases hx : goal.success_criteria with
      | nil => exact absurd hx hne
      | cons a l => rfl
    simp only [SuccessCriteriaTestGenerator.generate, SuccessCriteriaTestGenerator.generateRun,
      hie, Bool.false_eq_true, if_false]
    refine GenRun.ofRun_error _ _ e ?_
    simp only [complete_with_tools]
    rw [completeWithToolsGo_error llm.model llm.oracle submitTestExecutor e herr 12 (by decide)]
  · intro hcol hok
    by_cases hie : goal.constraints.isEmpty = true
    · simp only [ConstraintTestGenerator.generate, ConstraintTestGenerator.generateRun,
        hie, if_true]
    · rw [Bool.not_eq_true] at hie
      simp only [ConstraintTestGenerator.generate, ConstraintTestGenerator.generateRun,
        hie, Bool.false_eq_true, if_false] at hcol hok ⊢
      exact GenRun.ofRun_nil _ _ rfl hcol hok
  · intro hcol hok
    by_cases hie : goal.success_criteria.isEmpty = true
    · simp only [SuccessCriteriaTestGenerator.generate, SuccessCriteriaTestGenerator.generateRun,
        hie, if_true]
    · rw [Bool.not_eq_true] at hie
      simp only [SuccessCriteriaTestGenerator.generate, SuccessCriteriaTestGenerator.generateRun,
        hie, Bool.false_eq_true, if_false] at hcol hok ⊢
      exact GenRun.ofRun_nil _ _ rfl hcol hok

/-- C2 (amended, witness): concrete application at an always-raising
transport. -/
theorem claim_C2_amended_witness :
    ConstraintTestGenerator.generate (llmRaise "boom") uuidSupply
      goalOneConstraint "my_agent" = .error "boom" :=
  (claim_C2_amended (llmRaise "boom") uuidSupply goalOneConstraint none none
    "my_agent").1 "boom" (fun _ => rfl) (by decide)

/-- C4 (counterexample): the claim says the iteration budget for single-item
generation is 5; `ConstraintTestGenerator.generate_for_constraint` passes
`max_iterations=3` (constraint_gen.py line 167).  With a transport that
requests tool calls on every round trip, the single-constraint run performs
exactly 3 round trips, not 5. -/
theorem claim_C4_counterexample :
    (ConstraintTestGenerator.generateForConstraintRun (llmAlwaysSubmit subNonEmptyHalf)
        uuidSupply goalOneConstraint exampleConstraint "my_agent").llmCalls = 3
    ∧ (3 : Nat) ≠ 5 :=
  ⟨rfl, by decide⟩

/-- C4 (amended): the iteration budget passed to the tool-calling capability
is 3 for `generate_for_constraint`, 5 for `generate_for_criterion`, 5 for
full constraint batches and 12 for full success-criteria batches — observed
as the exact number of transport round trips when the capability keeps
requesting tool calls. -/
theorem claim_C4_amended (llm : LLMProviderModel) (uuidHex : Nat → String)
    (goal : Goal) (c : Constraint) (sc : SuccessCriterion)
    (node_names tool_names : Option (List String)) (am : String)
    (hA : alwaysToolCalls llm.oracle) :
    (ConstraintTestGenerator.generateForConstraintRun llm uuidHex goal c am).llmCalls = 3
  ∧ (SuccessCriteriaTestGenerator.generateForCriterionRun llm uuidHex goal sc
      node_names tool_names am).llmCalls = 5
  ∧ (goal.constraints ≠ [] →
      (ConstraintTestGenerator.generateRun llm uuidHex goal am).llmCalls = 5)
  ∧ (goal.success_criteria ≠ [] →
      (SuccessCriteriaTestGenerator.generateRun llm uuidHex goal node_names
        tool_names am).llmCalls = 12) := by
  refine ⟨?_, ?_, ?_, ?_⟩
  · simp only [ConstraintTestGenerator.generateForConstraintRun, GenRun.ofRun,
      complete_with_tools]
    obtain ⟨r, s2, heq, _⟩ :=
      completeWithToolsGo_always llm.model llm.oracle submitTestExecutor hA 3 _
        ([] : List JsonFields) 0 0 0
    rw [heq]
  · simp only [SuccessCriteriaTestGenerator.generateForCriterionRun, GenRun.ofRun,
      complete_with_tools]
    obtain ⟨r, s2, heq, _⟩ :=
      completeWithToolsGo_always llm.model llm.oracle submitTestExecutor hA 5 _
        ([] : List JsonFields) 0 0 0
    rw [heq]
  · intro hne
    have hie : goal.constraints.isEmpty = false := by
      cases hx : goal.constraints with
      | nil => exact absurd hx hne
      | cons a l => rfl
    simp only [ConstraintTestGenerator.generateRun, hie, Bool.false_eq_true, if_false,
      GenRun.ofRun, complete_with_tools]
    obtain ⟨r, s2, heq, _⟩ :=
      completeWithToolsGo_always llm.model llm.oracle submitTestExecutor hA 5 _
        ([] : List JsonFields) 0 0 0
    rw [heq]
  · intro hne
    have hie : goal.success_criteria.isEmpty = false := by
      cases hx : goal.success_criteria with
      | nil => exact absurd hx hne
      | cons a l => rfl
    simp only [SuccessCriteriaTestGenerator.generateRun, hie, Bool.false_eq_true, if_false,
      GenRun.ofRun, complete_with_tools]
    obtain ⟨r, s2, heq, _⟩ :=
      completeWithToolsGo_always llm.model llm.oracle submitTestExecutor hA 12 _
        ([] : List JsonFields) 0 0 0
    rw [heq]

/-- C4 (amended, witness): concrete application at an always-submitting
transport. -/
theorem claim_C4_amended_witness :
    (ConstraintTestGenerator.generateForConstraintRun (llmAlwaysSubmit subNonEmptyHalf)
        uuidSupply goalOneConstraint exampleConstraint "my_agent").llmCalls = 3 :=
  (claim_C4_amended (llmAlwaysSubmit subNonEmptyHalf) uuidSupply goalOneConstraint
      exampleConstraint exampleCriterion none none "my_agent"
      (fun _ => ⟨_, rfl, by decide, by decide⟩)).1

/-- C5: a goal with no constraints makes `ConstraintTestGenerator.generate`
return the empty sequence without any transport call, and likewise a goal
with no success criteria for `SuccessCriteriaTestGenerator.generate`. -/
theorem claim_C5 (llm : LLMProviderModel) (uuidHex : Nat → String) (goal : Goal)
    (node_names tool_names : Option (List String)) (am : String) :
    (goal.constraints = [] →
      (ConstraintTestGenerator.generateRun llm uuidHex goal am).result = .ok []
      ∧ (ConstraintTestGenerator.generateRun llm uuidHex goal am).llmResult = none
      ∧ (ConstraintTestGenerator.generateRun llm uuidHex goal am).llmCalls = 0)
  ∧ (goal.success_criteria = [] →
      (SuccessCriteriaTestGenerator.generateRun llm uuidHex goal node_names
          tool_names am).result = .ok []
      ∧ (SuccessCriteriaTestGenerator.generateRun llm uuidHex goal node_names
          tool_names am).llmResult = none
      ∧ (SuccessCriteriaTestGenerator.generateRun llm uuidHex goal node_names
          tool_names am).llmCalls = 0) := by
  constructor
  · intro h
    refine ⟨?_, ?_, ?_⟩ <;> simp [ConstraintTestGenerator.generateRun, h]
  · intro h
    refine ⟨?_, ?_, ?_⟩ <;> simp [SuccessCriteriaTestGenerator.generateRun, h]

/-- C5 (witness): concrete application at a goal with no constraints and no
success criteria. -/
theorem claim_C5_witness :
    ((ConstraintTestGenerator.generateRun (llmRaise "x") uuidSupply emptyGoal
        "my_agent").result = .ok []
      ∧ (ConstraintTestGenerator.generateRun (llmRaise "x") uuidSupply emptyGoal
          "my_agent").llmResult = none
      ∧ (ConstraintTestGenerator.generateRun (llmRaise "x") uuidSupply emptyGoal
          "my_agent").llmCalls = 0)
    ∧ ((SuccessCriteriaTestGenerator.generateRun (llmRaise "x") uuidSupply emptyGoal
          none none "my_agent").result = .ok []
      ∧ (SuccessCriteriaTestGenerator.generateRun (llmRaise "x") uuidSupply emptyGoal
          none none "my_agent").llmResult = none
      ∧ (SuccessCriteriaTestGenerator.generateRun (llmRaise "x") uuidSupply emptyGoal
          none none "my_agent").llmCalls = 0) :=
  ⟨(claim_C5 (llmRaise "x") uuidSupply emptyGoal none none "my_agent").1 rfl,
   (claim_C5 (llmRaise "x") uuidSupply emptyGoal none none "my_agent").2 rfl⟩

/-- Inversion of `constraintBatchPost`: a successful outcome decomposes into
successful construction, successful filtering and the take-5 cap. -/
theorem constraintBatchPost_ok_inv (uuidHex : Nat → String) (gid : String)
    (col : List JsonFields) (l : List Test)
    (h : constraintBatchPost uuidHex gid col = .ok l) :
    ∃ tests kept,
      ConstraintTestGenerator.createTestsFromCollected uuidHex col gid = .ok tests
      ∧ skeletonFilter tests = .ok kept ∧ l = kept.take 5
      ∧ l.length = min kept.length 5 := by
  unfold constraintBatchPost at h
  split at h
  · exact Except.noConfusion h
  · rename_i tests hc
    split at h
    · exact Except.noConfusion h
    · rename_i kept hf
      have hl : kept.take 5 = l := Except.ok.inj h
      refine ⟨tests, kept, hc, hf, hl.symm, ?_⟩
      rw [← hl]
      simp [List.length_take, Nat.min_comm]

/-- Inversion of `successBatchPost` (cap 12). -/
theorem successBatchPost_ok_inv (uuidHex : Nat → String) (gid : String)
    (col : List JsonFields) (l : List Test)
    (h : successBatchPost uuidHex gid col = .ok l) :
    ∃ tests kept,
      SuccessCriteriaTestGenerator.createTestsFromCollected uuidHex col gid = .ok tests
      ∧ skeletonFilter tests = .ok kept ∧ l = kept.take 12
      ∧ l.length = min kept.length 12 := by
  unfold successBatchPost at h
  split at h
  · exact Except.noConfusion h
  · rename_i tests hc
    split at h
    · exact Except.noConfusion h
    · rename_i kept hf
      have hl : kept.take 12 = l := Except.ok.inj h
      refine ⟨tests, kept, hc, hf, hl.symm, ?_⟩
      rw [← hl]
      simp [List.length_take, Nat.min_comm]

/-- C3: when a batch generator returns successfully, the returned sequence
equals the first `min n cap` surviving tests in submission order, with
`cap = 5` for `ConstraintTestGenerator.generate` and `cap = 12` for
`SuccessCriteriaTestGenerator.generate`; survivors beyond the cap are
discarded regardless of their confidence scores. -/
theorem claim_C3 (llm : LLMProviderModel) (uuidHex : Nat → String) (goal : Goal)
    (node_names tool_names : Option (List String)) (am : String)
    (l5 l12 : List Test) :
    (ConstraintTestGenerator.generate llm uuidHex goal am = .ok l5 →
      ∃ tests survivors,
        ConstraintTestGenerator.createTestsFromCollected uuidHex
            (ConstraintTestGenerator.generateRun llm uuidHex goal am).collected
            goal.id = .ok tests
        ∧ skeletonFilter tests = .ok survivors
        ∧ l5 = survivors.take 5
        ∧ l5.length = min survivors.length 5)
  ∧ (SuccessCriteriaTestGenerator.generate llm uuidHex goal node_names tool_names am
        = .ok l12 →
      ∃ tests survivors,
        SuccessCriteriaTestGenerator.createTestsFromCollected uuidHex
            (SuccessCriteriaTestGenerator.generateRun llm uuidHex goal node_names
              tool_names am).collected goal.id = .ok tests
        ∧ skeletonFilter tests = .ok survivors
        ∧ l12 = survivors.take 12
        ∧ l12.length = min survivors.length 12) := by
  constructor
  · intro h
    by_cases hie : goal.constraints.isEmpty = true
    · simp only [ConstraintTestGenerator.generate, ConstraintTestGenerator.generateRun,
        hie, if_true] at h ⊢
      have hl : ([] : List Test) = l5 := Except.ok.inj h
      refine ⟨[], [], rfl, rfl, hl ▸ rfl, ?_⟩
      rw [← hl]
      simp
    · rw [Bool.not_eq_true] at hie
      simp only [ConstraintTestGenerator.generate, ConstraintTestGenerator.generateRun,
        hie, Bool.false_eq_true, if_false] at h ⊢
      exact constraintBatchPost_ok_inv uuidHex goal.id _ l5 (GenRun.ofRun_ok _ _ _ h)
  · intro h
    by_cases hie : goal.success_criteria.isEmpty = true
    · simp only [SuccessCriteriaTestGenerator.generate, SuccessCriteriaTestGenerator.generateRun,
        hie, if_true] at h ⊢
      have hl : ([] : List Test) = l12 := Except.ok.inj h
      refine ⟨[], [], rfl, rfl, hl ▸ rfl, ?_⟩
      rw [← hl]
      simp
    · rw [Bool.not_eq_true] at hie
      simp only [SuccessCriteriaTestGenerator.generate, SuccessCriteriaTestGenerator.generateRun,
        hie, Bool.false_eq_true, if_false] at h ⊢
      exact successBatchPost_ok_inv uuidHex goal.id _ l12 (GenRun.ofRun_ok _ _ _ h)

/-- C3 (witness): a concrete successful run through the constraint
generator. -/
theorem claim_C3_witness :
    ∃ tests survivors,
      ConstraintTestGenerator.createTestsFromCollected uuidSupply
          (ConstraintTestGenerator.generateRun (llmRaise "x") uuidSupply emptyGoal
            "my_agent").collected emptyGoal.id = .ok tests
      ∧ skeletonFilter tests = .ok survivors
      ∧ ([] : List Test) = survivors.take 5
      ∧ ([] : List Test).length = min survivors.length 5 :=
  (claim_C3 (llmRaise "x") uuidSupply emptyGoal none none "my_agent" [] []).1 rfl

/-- C7: the tool-calling loop performs at most `max_iterations` transport
round trips (5 for a constraint batch), and when the capability keeps
requesting tool calls until the budget is exhausted the loop returns
normally with stop reason `"max_iterations"` and the generator returns the
post-processing (map, filter, cap) of the submissions collected so far
rather than raising or blocking. -/
theorem claim_C7 (llm : LLMProviderModel) (uuidHex : Nat → String) (goal : Goal)
    (am : String) :
    (ConstraintTestGenerator.generateRun llm uuidHex goal am).llmCalls ≤ 5
  ∧ (alwaysToolCalls llm.oracle → goal.constraints ≠ [] →
      (∃ r, (ConstraintTestGenerator.generateRun llm uuidHex goal am).llmResult
          = some (.ok r) ∧ r.stop_reason = "max_iterations")
      ∧ (ConstraintTestGenerator.generateRun llm uuidHex goal am).llmCalls = 5
      ∧ (ConstraintTestGenerator.generateRun llm uuidHex goal am).result
          = constraintBatchPost uuidHex goal.id
              (ConstraintTestGenerator.generateRun llm uuidHex goal am).collected) := by
  constructor
  · by_cases hie : goal.constraints.isEmpty = true
    · simp [ConstraintTestGenerator.generateRun, hie]
    · rw [Bool.not_eq_true] at hie
      simp only [ConstraintTestGenerator.generateRun, hie, Bool.false_eq_true, if_false,
        GenRun.ofRun, complete_with_tools]
      simpa using completeWithToolsGo_calls_le llm.model llm.oracle submitTestExecutor
        5 _ ([] : List JsonFields) 0 0 0
  · intro hA hne
    have hie : goal.constraints.isEmpty = false := by
      cases hx : goal.constraints with
      | nil => exact absurd hx hne
      | cons a l => rfl
    simp only [ConstraintTestGenerator.generateRun, hie, Bool.false_eq_true, if_false,
      GenRun.ofRun, complete_with_tools]
    obtain ⟨r, s2, heq, hst⟩ :=
      completeWithToolsGo_always llm.model llm.oracle submitTestExecutor hA 5 _
        ([] : List JsonFields) 0 0 0
    rw [heq]
    exact ⟨⟨r, rfl, hst⟩, rfl, rfl⟩

/-- C7 (witness): concrete application at an always-submitting transport. -/
theorem claim_C7_witness :
    (ConstraintTestGenerator.generateRun (llmAlwaysSubmit subNonEmptyHalf) uuidSupply
        goalOneConstraint "my_agent").llmCalls ≤ 5
    ∧ (∃ r, (ConstraintTestGenerator.generateRun (llmAlwaysSubmit subNonEmptyHalf)
          uuidSupply goalOneConstraint "my_agent").llmResult = some (.ok r)
        ∧ r.stop_reason = "max_iterations")
    ∧ (ConstraintTestGenerator.generateRun (llmAlwaysSubmit subNonEmptyHalf) uuidSupply
        goalOneConstraint "my_agent").result
        = constraintBatchPost uuidSupply goalOneConstraint.id
            (ConstraintTestGenerator.generateRun (llmAlwaysSubmit subNonEmptyHalf)
              uuidSupply goalOneConstraint "my_agent").collected :=
  ⟨(claim_C7 (llmAlwaysSubmit subNonEmptyHalf) uuidSupply goalOneConstraint "my_agent").1,
   (((claim_C7 (llmAlwaysSubmit subNonEmptyHalf) uuidSupply goalOneConstraint "my_agent").2
      (fun _ => ⟨_, rfl, by decide, by decide⟩) (by decide)).1),
   (((claim_C7 (llmAlwaysSubmit subNonEmptyHalf) uuidSupply goalOneConstraint "my_agent").2
      (fun _ => ⟨_, rfl, by decide, by decide⟩) (by decide)).2.2)⟩

/-- Cancellation of a common left part of a string append. -/
theorem stringAppendLeftCancel (p a b : String) (h : p ++ a = p ++ b) : a = b := by
  have hd := congrArg String.data h
  simp only [String.data_append] at hd
  have h2 : a.data = b.data := List.append_cancel_left hd
  exact congrArg String.mk h2

/-- Per-submission facts about the tests `_create_tests_from_collected`
builds, by induction on the collected list (the counter `k` tracks the uuid
supply position). -/
theorem createTestsCore_ok (key : String) (tt : TestType) (uuidHex : Nat → String)
    (gid : String) :
    ∀ (collected : List JsonFields) (k : Nat) (tests : List Test),
      createTestsCore key tt uuidHex gid collected k = .ok tests →
      List.Forall₂ (fun td t =>
          t.approval_status = .PENDING ∧ t.generated_by = "llm"
          ∧ pyFloat (dictGet td "confidence" (.num half)) = .ok t.llm_confidence
          ∧ (JsonFields.find? td "confidence" = none → t.llm_confidence = half))
        collected tests
      ∧ tests.map (fun t => t.id)
          = (List.range collected.length).map
              (fun i => "test_" ++ (uuidHex (k + i)).take 8) := by
  intro collected
  induction collected with
  | nil =>
    intro k tests h
    have hl : ([] : List Test) = tests := Except.ok.inj h
    rw [← hl]
    exact ⟨List.Forall₂.nil, by simp⟩
  | cons td rest ih =>
    intro k tests h
    unfold createTestsCore at h
    cases hm : makeTest key tt ((uuidHex k).take 8) gid td with
    | error e =>
      rw [hm] at h
      exact Except.noConfusion h
    | ok t =>
      rw [hm] at h
      cases hr : createTestsCore key tt uuidHex gid rest (k + 1) with
      | error e =>
        rw [hr] at h
        exact Except.noConfusion h
      | ok ts =>
        rw [hr] at h
        have hts : t :: ts = tests := Except.ok.inj h
        rw [← hts]
        obtain ⟨hf, hid⟩ := ih (k + 1) ts hr
        have hmk := hm
        unfold makeTest at hmk
        cases hp : pyFloat (dictGet td "confidence" (.num half)) with
        | error e =>
          rw [hp] at hmk
          exact Except.noConfusion hmk
        | ok conf =>
          rw [hp] at hmk
          have ht := Except.ok.inj hmk
          constructor
          · refine List.Forall₂.cons ⟨?_, ?_, ?_, ?_⟩ hf
            · rw [← ht]
            · rw [← ht]
            · rw [hp, ← ht]
            · intro hn
              have hd : dictGet td "confidence" (.num half) = .num half := by
                unfold dictGet
                rw [hn]
              rw [hd] at hp
              have hc : half = conf := Except.ok.inj hp
              rw [← ht]
              exact hc.symm
          · simp only [List.map_cons, List.length_cons]
            rw [List.range_succ_eq_map]
            simp only [List.map_cons, List.map_map]
            refine congrArg₂ List.cons ?_ ?_
            · rw [← ht, Nat.add_zero]
            · rw [hid]
              refine List.map_congr_left ?_
              intro i _
              have hki : k + 1 + i = k + (i + 1) := by omega
              simp only [Function.comp]
              rw [hki]

/-- C6 (counterexample): `float(td.get("confidence", 0.5))` raises when the
confidence field is present but not parseable as a number, so the mapping
from recorded submissions to `Test` objects does raise on malformed
confidence input, contrary to the claim. -/
theorem claim_C6_counterexample :
    ConstraintTestGenerator.createTestsFromCollected uuidSupply [subUnparseable] "g1"
      = .error "ValueError: could not convert string to float: high" := rfl

/-- C6 (amended): every `Test` built from a recorded submission has approval
status PENDING, `generated_by = "llm"`, an id freshly minted from the uuid
supply (pairwise distinct when the 8-character uuid digests are), and
`llm_confidence` equal to `float()` of the submission confidence, which is
0.5 exactly when the field is absent; the construction raises
(`ValueError`/`TypeError`) when the confidence is present but not
convertible — the error is not caught. -/
theorem claim_C6_amended (key : String) (tt : TestType) (uuidHex : Nat → String)
    (gid : String) (collected : List JsonFields) (tests : List Test)
    (h : createTestsCore key tt uuidHex gid collected 0 = .ok tests) :
    List.Forall₂ (fun td t =>
        t.approval_status = .PENDING ∧ t.generated_by = "llm"
        ∧ pyFloat (dictGet td "confidence" (.num half)) = .ok t.llm_confidence
        ∧ (JsonFields.find? td "confidence" = none → t.llm_confidence = half))
      collected tests
    ∧ tests.map (fun t => t.id)
        = (List.range collected.length).map (fun i => "test_" ++ (uuidHex i).take 8)
    ∧ ((∀ m n : Nat, m ≠ n → (uuidHex m).take 8 ≠ (uuidHex n).take 8) →
        (tests.map (fun t => t.id)).Pairwise (· ≠ ·)) := by
  obtain ⟨hf, hid⟩ := createTestsCore_ok key tt uuidHex gid collected 0 tests h
  have hid0 : tests.map (fun t => t.id)
      = (List.range collected.length).map (fun i => "test_" ++ (uuidHex i).take 8) := by
    rw [hid]
    simp
  refine ⟨hf, hid0, ?_⟩
  intro hinj
  rw [hid0]
  rw [List.pairwise_map]
  refine List.Pairwise.imp ?_ (List.pairwise_lt_range _)
  intro i j hij
  intro heq
  exact hinj i j (Nat.ne_of_lt hij) (stringAppendLeftCancel "test_" _ _ heq)

/-- A recorded submission with a parseable numeric confidence 0.9. -/
def subConf09 : JsonFields :=
  .cons "constraint_id" (.str "c1") (.cons "test_name" (.str "test_c1")
    (.cons "test_code" (.str "assert True") (.cons "description" (.str "d")
    (.cons "confidence" (.num (mkRat 9 10)) .nil))))

/-- The `Test` built from `subConf09` at uuid position 0. -/
def testOfSubConf09 : Test :=
  { id := "test_01234567", goal_id := "g1", parent_criteria_id := .str "c1",
    test_type := .CONSTRAINT, test_name := .str "test_c1",
    test_code := .str "assert True", description := .str "d",
    input := .obj .nil, expected_output := .obj .nil, generated_by := "llm",
    llm_confidence := mkRat 9 10, approval_status := .PENDING }

/-- C6 (amended, witness): concrete application at one submission with
confidence 0.9. -/
theorem claim_C6_amended_witness :
    List.Forall₂ (fun td t =>
        t.approval_status = .PENDING ∧ t.generated_by = "llm"
        ∧ pyFloat (dictGet td "confidence" (.num half)) = .ok t.llm_confidence
        ∧ (JsonFields.find? td "confidence" = none → t.llm_confidence = half))
      [subConf09] [testOfSubConf09] :=
  (claim_C6_amended "constraint_id" .CONSTRAINT uuidSupply "g1" [subConf09]
    [testOfSubConf09] rfl).1

/-- Outcome shapes of `cmdTestRunFinish`: the one subprocess invocation
carries timeout 600; an always-timing-out runner yields status 1 with the
10-minute message; an exit code from a completed run is propagated
unchanged. -/
theorem runPytestBulk_inv (runner : Runner) (cmd : List String) :
    (∀ p ∈ (runPytestBulk runner cmd).invocations, p.2 = 600)
  ∧ ((∀ c, runner c 600 = .timeoutExpired) →
      (runPytestBulk runner cmd).status = 1
      ∧ "Error: Test execution timed out after 10 minutes"
          ∈ (runPytestBulk runner cmd).printed)
  ∧ (∀ rc, (∀ c, runner c 600 = .completed rc) →
      (runPytestBulk runner cmd).status = rc) := by
  unfold runPytestBulk
  split
  · rename_i rc hr
    refine ⟨by simp, ?_, ?_⟩
    · intro hto
      have h2 := hto cmd
      rw [hr] at h2
      exact RunOutcome.noConfusion h2
    · intro rc2 hc
      have h2 := hc cmd
      rw [hr] at h2
      simp only [RunOutcome.completed.injEq] at h2
      simp [h2]
  · rename_i hr
    refine ⟨by simp, ?_, ?_⟩
    · intro _
      exact ⟨rfl, by simp⟩
    · intro rc2 hc
      have h2 := hc cmd
      rw [hr] at h2
      exact RunOutcome.noConfusion h2
  · rename_i e hr
    refine ⟨by simp, ?_, ?_⟩
    · intro hto
      have h2 := hto cmd
      rw [hr] at h2
      exact RunOutcome.noConfusion h2
    · intro rc2 hc
      have h2 := hc cmd
      rw [hr] at h2
      exact RunOutcome.noConfusion h2

/-- Same shapes for the single-test debug run (timeout 120, 2-minute
message). -/
theorem runPytestSingle_inv (runner : Runner) (cmd : List String) :
    (∀ p ∈ (runPytestSingle runner cmd).invocations, p.2 = 120)
  ∧ ((∀ c, runner c 120 = .timeoutExpired) →
      (runPytestSingle runner cmd).status = 1
      ∧ "Error: Test execution timed out after 2 minutes"
          ∈ (runPytestSingle runner cmd).printed)
  ∧ (∀ rc, (∀ c, runner c 120 = .completed rc) →
      (runPytestSingle runner cmd).status = rc) := by
  unfold runPytestSingle
  split
  · rename_i rc hr
    refine ⟨by simp, ?_, ?_⟩
    · intro hto
      have h2 := hto cmd
      rw [hr] at h2
      exact RunOutcome.noConfusion h2
    · intro rc2 hc
      have h2 := hc cmd
      rw [hr] at h2
      simp only [RunOutcome.completed.injEq] at h2
      simp [h2]
  · rename_i hr
    refine ⟨by simp, ?_, ?_⟩
    · intro _
      exact ⟨rfl, by simp⟩
    · intro rc2 hc
      have h2 := hc cmd
      rw [hr] at h2
      exact RunOutcome.noConfusion h2
  · rename_i e hr
    refine ⟨by simp, ?_, ?_⟩
    · intro hto
      have h2 := hto cmd
      rw [hr] at h2
      exact RunOutcome.noConfusion h2
    · intro rc2 hc
      have h2 := hc cmd
      rw [hr] at h2
      exact RunOutcome.noConfusion h2

/-- Every path of `cmdTestRun` either stops before touching the subprocess
(status 1, no invocation) or defers to `cmdTestRunFinish`. -/
theorem cmdTestRun_eq_finish_or_nil (fsExists : String → Bool) (runner : Runner)
    (args : TestRunArgs) :
    ((cmdTestRun fsExists runner args).invocations = []
      ∧ (cmdTestRun fsExists runner args).status = 1)
    ∨ ∃ cmd0, cmdTestRun fsExists runner args = cmdTestRunFinish runner args cmd0 := by
  unfold cmdTestRun
  dsimp only
  by_cases h1 : (!fsExists (args.agent_path ++ "/tests")) = true
  · rw [if_pos h1]
    left
    exact ⟨by trivial, by trivial⟩
  · rw [if_neg h1]
    by_cases h2 : (args.type == "all") = true
    · rw [if_pos h2]
      right
      exact ⟨_, rfl⟩
    · rw [if_neg h2]
      cases ht : typeToFile args.type with
      | none =>
        simp only [ht]
        right
        exact ⟨_, rfl⟩
      | some f =>
        simp only [ht]
        by_cases h3 : fsExists (args.agent_path ++ "/tests" ++ "/" ++ f) = true
        · rw [if_pos h3]
          right
          exact ⟨_, rfl⟩
        · rw [if_neg h3]
          left
          exact ⟨by trivial, by trivial⟩

/-- Every path of `cmdTestDebug` either stops before touching the subprocess
(status 1, no invocation) or defers to `cmdTestDebugFinish`. -/
theorem cmdTestDebug_eq_finish_or_nil (fsExists : String → Bool)
    (testFiles : List (String × String)) (runner : Runner) (args : TestDebugArgs) :
    ((cmdTestDebug fsExists testFiles runner args).invocations = []
      ∧ (cmdTestDebug fsExists testFiles runner args).status = 1)
    ∨ ∃ test_file, cmdTestDebug fsExists testFiles runner args
        = cmdTestDebugFinish runner args test_file := by
  unfold cmdTestDebug
  dsimp only
  by_cases h1 : (!fsExists (args.agent_path ++ "/tests")) = true
  · rw [if_pos h1]
    left
    exact ⟨by trivial, by trivial⟩
  · rw [if_neg h1]
    cases hf : findTestFile testFiles args.test_name with
    | none =>
      simp only [hf]
      left
      exact ⟨by trivial, by trivial⟩
    | some f =>
      simp only [hf]
      right
      exact ⟨_, rfl⟩

/-- C8: `cmd_test_run` passes a hard 600-second timeout to every pytest
subprocess invocation and `cmd_test_debug` a 120-second one; when the
subprocess times out, each command returns status 1 with a message stating
the timeout duration (10 minutes / 2 minutes) instead of propagating the
exception. -/
theorem claim_C8 (fsExists : String → Bool) (testFiles : List (String × String))
    (runner : Runner) (argsR : TestRunArgs) (argsD : TestDebugArgs) :
    (∀ p ∈ (cmdTestRun fsExists runner argsR).invocations, p.2 = 600)
  ∧ (∀ p ∈ (cmdTestDebug fsExists testFiles runner argsD).invocations, p.2 = 120)
  ∧ ((∀ cmd, runner cmd 600 = .timeoutExpired) →
      (cmdTestRun fsExists runner argsR).invocations ≠ [] →
      (cmdTestRun fsExists runner argsR).status = 1
      ∧ "Error: Test execution timed out after 10 minutes"
          ∈ (cmdTestRun fsExists runner argsR).printed)
  ∧ ((∀ cmd, runner cmd 120 = .timeoutExpired) →
      (cmdTestDebug fsExists testFiles runner argsD).invocations ≠ [] →
      (cmdTestDebug fsExists testFiles runner argsD).status = 1
      ∧ "Error: Test execution timed out after 2 minutes"
          ∈ (cmdTestDebug fsExists testFiles runner argsD).printed) := by
  refine ⟨?_, ?_, ?_, ?_⟩
  · rcases cmdTestRun_eq_finish_or_nil fsExists runner argsR with ⟨hi, _⟩ | ⟨cmd0, heq⟩
    · rw [hi]
      intro p hp
      exact absurd hp (List.not_mem_nil p)
    · rw [heq]
      exact (runPytestBulk_inv runner (buildRunCmd argsR cmd0)).1
  · rcases cmdTestDebug_eq_finish_or_nil fsExists testFiles runner argsD with
      ⟨hi, _⟩ | ⟨tf, heq⟩
    · rw [hi]
      intro p hp
      exact absurd hp (List.not_mem_nil p)
    · rw [heq]
      exact (runPytestSingle_inv runner _).1
  · intro hto hne
    rcases cmdTestRun_eq_finish_or_nil fsExists runner argsR with ⟨hi, _⟩ | ⟨cmd0, heq⟩
    · exact absurd hi hne
    · rw [heq]
      exact (runPytestBulk_inv runner (buildRunCmd argsR cmd0)).2.1 hto
  · intro hto hne
    rcases cmdTestDebug_eq_finish_or_nil fsExists testFiles runner argsD with
      ⟨hi, _⟩ | ⟨tf, heq⟩
    · exact absurd hi hne
    · rw [heq]
      exact (runPytestSingle_inv runner _).2.1 hto

/-- A filesystem in which every path exists. -/
def fsAll : String → Bool := fun _ => true

/-- A filesystem in which no path exists. -/
def fsNone : String → Bool := fun _ => false

/-- A subprocess runner that always times out. -/
def runnerTimeout : Runner := fun _ _ => RunOutcome.timeoutExpired

/-- A subprocess runner that always completes with exit code 7. -/
def runnerExit7 : Runner := fun _ _ => RunOutcome.completed 7

/-- Concrete `cmd_test_run` arguments (type filter `all`, default
parallelism). -/
def argsRunFix : TestRunArgs := { agent_path := "exports/agent", goal := "g1" }

/-- Concrete `cmd_test_debug` arguments. -/
def argsDebugFix : TestDebugArgs := { agent_path := "exports/agent", test_name := "test_x" }

/-- A concrete tests directory glob: one file containing `test_x`. -/
def filesFix : List (String × String) := [("test_constraints.py", "def test_x(): pass")]

/-- C8 (witness): with an always-timing-out runner both commands return
status 1 and print the duration-stating message. -/
theorem claim_C8_witness :
    ((cmdTestRun fsAll runnerTimeout argsRunFix).status = 1
      ∧ "Error: Test execution timed out after 10 minutes"
          ∈ (cmdTestRun fsAll runnerTimeout argsRunFix).printed)
    ∧ ((cmdTestDebug fsAll filesFix runnerTimeout argsDebugFix).status = 1
      ∧ "Error: Test execution timed out after 2 minutes"
          ∈ (cmdTestDebug fsAll filesFix runnerTimeout argsDebugFix).printed) :=
  ⟨(claim_C8 fsAll filesFix runnerTimeout argsRunFix argsDebugFix).2.2.1
      (fun _ => rfl) (by decide),
   (claim_C8 fsAll filesFix runnerTimeout argsRunFix argsDebugFix).2.2.2
      (fun _ => rfl) (by decide)⟩

/-- C9: `cmd_test_run` fails fast with status 1 and no subprocess invocation
when the tests directory is missing (printing a hint) or when the
type-specific test file is missing; when the subprocess runs to completion
its exit status is returned unchanged. -/
theorem claim_C9 (fsExists : String → Bool) (runner : Runner) (args : TestRunArgs) :
    (fsExists (args.agent_path ++ "/tests") = false →
      (cmdTestRun fsExists runner args).status = 1
      ∧ (cmdTestRun fsExists runner args).invocations = []
      ∧ "Hint: Generate and approve tests first using test-generate"
          ∈ (cmdTestRun fsExists runner args).printed)
  ∧ (∀ f, args.type ≠ "all" → typeToFile args.type = some f →
      fsExists (args.agent_path ++ "/tests") = true →
      fsExists (args.agent_path ++ "/tests" ++ "/" ++ f) = false →
      (cmdTestRun fsExists runner args).status = 1
      ∧ (cmdTestRun fsExists runner args).invocations = []
      ∧ ("Error: Test file not found: " ++ (args.agent_path ++ "/tests" ++ "/" ++ f))
          ∈ (cmdTestRun fsExists runner args).printed)
  ∧ (∀ rc, (∀ cmd, runner cmd 600 = .completed rc) →
      (cmdTestRun fsExists runner args).invocations ≠ [] →
      (cmdTestRun fsExists runner args).status = rc) := by
  refine ⟨?_, ?_, ?_⟩
  · intro h
    unfold cmdTestRun
    dsimp only
    rw [if_pos (by rw [h]; rfl)]
    exact ⟨by trivial, by trivial, by simp⟩
  · intro f htype htf h1 h2
    unfold cmdTestRun
    dsimp only
    rw [if_neg (by simp [h1])]
    rw [if_neg (by simp [htype])]
    simp only [htf]
    rw [if_neg (by simp [h2])]
    exact ⟨by trivial, by trivial, by simp⟩
  · intro rc hc hne
    rcases cmdTestRun_eq_finish_or_nil fsExists runner args with ⟨hi, _⟩ | ⟨cmd0, heq⟩
    · exact absurd hi hne
    · rw [heq]
      exact (runPytestBulk_inv runner (buildRunCmd args cmd0)).2.2 rc hc

/-- C9 (witness): a missing tests directory fails fast with the hint and no
invocation; a completing subprocess's exit code 7 is propagated. -/
theorem claim_C9_witness :
    ((cmdTestRun fsNone runnerExit7 argsRunFix).status = 1
      ∧ (cmdTestRun fsNone runnerExit7 argsRunFix).invocations = []
      ∧ "Hint: Generate and approve tests first using test-generate"
          ∈ (cmdTestRun fsNone runnerExit7 argsRunFix).printed)
    ∧ (cmdTestRun fsAll runnerExit7 argsRunFix).status = 7 :=
  ⟨(claim_C9 fsNone runnerExit7 argsRunFix).1 rfl,
   (claim_C9 fsAll runnerExit7 argsRunFix).2.2 7 (fun _ => rfl) (by decide)⟩

/-- A `json.loads` oracle returning a well-formed object whose explanation
value is the number 42 (not a string). -/
def cexJsonLoads : String → Except String Json :=
  fun _ => .ok (.obj (.cons "passes" (.bool true) (.cons "explanation" (.num 42) .nil)))

/-- C10 (counterexample): when the model's JSON supplies a non-string
`explanation`, `LLMJudge.evaluate` passes that value through unchanged, so
the returned dict does not contain a string explanation as the claim
states. -/
theorem claim_C10_counterexample :
    (LLMJudge.evaluate (.ok "irrelevant") cexJsonLoads).explanation = Json.num 42
    ∧ (LLMJudge.evaluate (.ok "irrelevant") cexJsonLoads).explanation.isStr = false :=
  ⟨rfl, rfl⟩

/-- C10 (amended): `LLMJudge.evaluate` always returns a result with a
boolean `passes`; whenever the client call or the JSON decoding raises, it
returns `passes = false` with a string explanation prefixed
`LLM judge error:` instead of propagating; a decoded object missing the
`passes` key yields `passes = false`; the explanation is the decoded
object's `explanation` value (a string only when the model supplies a
string or omits the key). -/
theorem claim_C10_amended (clientText : Except String String)
    (jsonLoads : String → Except String Json) :
    (∀ e, clientText = .error e →
      LLMJudge.evaluate clientText jsonLoads
        = { passes := false, explanation := .str ("LLM judge error: " ++ e) })
  ∧ (∀ raw e, clientText = .ok raw →
      jsonLoads (stripMarkdownFence (pyStrip raw)) = .error e →
      LLMJudge.evaluate clientText jsonLoads
        = { passes := false, explanation := .str ("LLM judge error: " ++ e) })
  ∧ (∀ raw kvs, clientText = .ok raw →
      jsonLoads (stripMarkdownFence (pyStrip raw)) = .ok (.obj kvs) →
      (LLMJudge.evaluate clientText jsonLoads).passes
          = pyTruthy (dictGet kvs "passes" (.bool false))
      ∧ (JsonFields.find? kvs "passes" = none →
          (LLMJudge.evaluate clientText jsonLoads).passes = false)
      ∧ (LLMJudge.evaluate clientText jsonLoads).explanation
          = dictGet kvs "explanation" (.str "No explanation provided")) := by
  refine ⟨?_, ?_, ?_⟩
  · intro e he
    subst he
    rfl
  · intro raw e hc hj
    subst hc
    unfold LLMJudge.evaluate
    dsimp only
    rw [hj]
  · intro raw kvs hc hj
    subst hc
    unfold LLMJudge.evaluate
    dsimp only
    rw [hj]
    dsimp only
    refine ⟨rfl, ?_, rfl⟩
    intro hn
    unfold dictGet
    rw [hn]
    rfl

/-- C10 (amended, witness): a raising client call yields the prefixed error
explanation with `passes = false`. -/
theorem claim_C10_amended_witness :
    LLMJudge.evaluate (.error "boom") cexJsonLoads
      = { passes := false, explanation := .str "LLM judge error: boom" } :=
  (claim_C10_amended (.error "boom") cexJsonLoads).1 "boom" rfl

end Hive
